import Mathlib

/-!
Verification of the philex web backend (`src/main.py`): a FastAPI application
rendering static pages and handling two form submissions (contact, reservation),
each forwarded as an HTML email scheduled as a background task, with response
middleware adding security/caching headers and fixing font MIME types.

The Python source is shallowly embedded below: pure Lean functions for the
handlers, the HTML content formatter, the middleware, and the helpers of the
standard library they call (`str.title`, `str.strip`, `os.path.splitext`).
-/

/-- Model of Python `str.title()` restricted to the ASCII alphabet (the only
characters the source applies it to): the first character of every run of
letters is uppercased, the rest of the run lowercased, other characters kept. -/
def pyTitle (s : String) : String :=
  String.mk (titleGo s.data false)
where
  titleGo : List Char → Bool → List Char
  | [], _ => []
  | c :: cs, prevAlpha =>
    if c.isAlpha then
      (if prevAlpha then c.toLower else c.toUpper) :: titleGo cs true
    else
      c :: titleGo cs false

/-- Embedding of `create_html_content` (src/main.py lines 31-39): wraps each
key/value pair of the ordered mapping in a `<p><b>Key:</b> value</p>` line,
with the key title-cased and the value interpolated verbatim, inside the fixed
HTML skeleton of the f-string. -/
def create_html_content (data : List (String × String)) : String :=
  "\n    <html>\n    <body>\n        <h2>Form Submission</h2>\n        "
    ++ String.join (data.map (fun kv => "<p><b>" ++ pyTitle kv.1 ++ ":</b> " ++ kv.2 ++ "</p>"))
    ++ "\n    </body>\n    </html>\n    "

/-- Header maps of an HTTP response, modelled as a partial map from header
name to value (Starlette `headers.update` / `headers[k] = v` set-key
semantics). -/
def Headers : Type := String → Option String

/-- The empty header map. -/
def Headers.empty : Headers := fun _ => none

/-- Set a header, overwriting any previous value for that name. -/
def Headers.set (h : Headers) (k v : String) : Headers :=
  fun q => if q = k then some v else h q

/-- Read a header. -/
def Headers.get (h : Headers) (k : String) : Option String := h k

/-- An outgoing HTTP response: status code, header map, and the redirect
target for `RedirectResponse` replies (`none` for ordinary responses). -/
structure Response where
  status : Nat
  headers : Headers
  location : Option String

/-- A scheduled background email-send attempt: the `subject` and HTML
`content` arguments passed to `background_tasks.add_task(send_email, ...)`.
(The config argument is the process-wide cached `EmailConfig`; it carries no
per-request data.) -/
structure EmailTask where
  subject : String
  content : String
deriving DecidableEq, Repr

/-- Split a character list at every occurrence of `c` (the semantics of
Python `str.split(c)` with a one-character separator). -/
def splitChar (cs : List Char) (c : Char) : List (List Char) :=
  match cs with
  | [] => [[]]
  | x :: xs =>
    let r := splitChar xs c
    if x = c then [] :: r
    else
      match r with
      | [] => [[x]]
      | y :: ys => (x :: y) :: ys

/-- Remove leading and trailing whitespace (Python `str.strip()`). -/
def trimChars (cs : List Char) : List Char :=
  ((cs.dropWhile Char.isWhitespace).reverse.dropWhile Char.isWhitespace).reverse

/-- Read a non-empty all-digit character list as a natural number. -/
def digitsToNat (cs : List Char) : Option Nat :=
  if !cs.isEmpty && cs.all Char.isDigit then
    some (cs.foldl (fun acc d => acc * 10 + (d.toNat - 48)) 0)
  else none

/-- Model of the email-address syntax check the framework applies to the
`email: EmailStr = Form(...)` parameter of `contact_form` (pydantic's
`EmailStr`, an external dependency of src/main.py): exactly one `@`, a
non-empty local part, and a non-empty domain that contains an interior dot,
with no whitespace anywhere. -/
def isValidEmail (s : String) : Bool :=
  match splitChar s.data '@' with
  | [localPart, domain] =>
    !localPart.isEmpty && !domain.isEmpty && domain.contains '.'
      && domain.headD '@' != '.' && domain.getLastD '@' != '.'
      && s.data.all (fun c => !c.isWhitespace)
  | _ => false

/-- Model of the integer coercion the framework applies to the
`partysize: int = Form(...)` parameter of `reserve_table` (pydantic's `int`
validator, i.e. Python `int(...)` on the submitted form string): optional
surrounding whitespace, an optional sign, then one or more digits. Returns
`none` exactly when validation fails (HTTP 422). -/
def parseFormInt (s : String) : Option Int :=
  let cs := trimChars s.data
  let signed : Bool × List Char :=
    match cs with
    | '-' :: rest => (true, rest)
    | '+' :: rest => (false, rest)
    | _ => (false, cs)
  match digitsToNat signed.2 with
  | some n => some (if signed.1 then -(n : Int) else (n : Int))
  | none => none

/-- A submitted contact form: the raw form fields of a POST to `/contact-us`
(`none` = the field is absent from the body). -/
structure ContactRequest where
  name : Option String
  email : Option String
  message : Option String

/-- Embedding of the `/contact-us` endpoint (src/main.py lines 63-81),
including the framework's validation of the declared parameters: a missing
required field or an invalid `EmailStr` yields a 422 response and the handler
body never runs (no email task); on valid input the handler schedules one
email with subject built from the name and content formatted from the three
fields, and returns a 302 redirect to `/contact`. -/
def contact_form (req : ContactRequest) : Response × List EmailTask :=
  match req.name, req.email, req.message with
  | some name, some email, some message =>
    if isValidEmail email then
      let subject := "Contact Form: " ++ name
      let content := create_html_content
        [("name", name), ("email", email), ("message", message)]
      (⟨302, Headers.empty, some "/contact"⟩, [⟨subject, content⟩])
    else
      (⟨422, Headers.empty, none⟩, [])
  | _, _, _ => (⟨422, Headers.empty, none⟩, [])

/-- A submitted reservation form: the raw form fields of a POST to
`/reserve-table` (`none` = absent; `datetime` is the optional field). -/
structure ReserveRequest where
  partysize : Option String
  date : Option String
  time : Option String
  datetime : Option String

/-- Embedding of the `/reserve-table` endpoint (src/main.py lines 83-110),
including the framework's validation of the declared parameters
(`partysize: int`, `date: str`, `time: str` required; `datetime: str`
optional). In the handler body the parameter `datetime` shadows the
`datetime` module, which moreover is never imported; `datetime.strptime`
is therefore an attribute lookup on a string (or `None`) and raises on every
call, so the bare `except:` always takes the fallback branch: the formatted
date is always the raw `date` string, and the `datetime` field is never
used. The handler schedules one email and returns a 302 redirect to `/bar`. -/
def reserve_table (req : ReserveRequest) : Response × List EmailTask :=
  match req.partysize, req.date, req.time with
  | some ps, some date, some time =>
    match parseFormInt ps with
    | some partysize =>
      let formatted_date := date
      let subject := "Table Reservation Request"
      let content := create_html_content
        [("Party Size", toString partysize), ("Date", formatted_date), ("Time", time)]
      (⟨302, Headers.empty, some "/bar"⟩, [⟨subject, content⟩])
    | none => (⟨422, Headers.empty, none⟩, [])
  | _, _, _ => (⟨422, Headers.empty, none⟩, [])

/-- Model of Python `s.strip("/")`: remove every leading and trailing `/`. -/
def stripSlashes (s : String) : String :=
  String.mk (((s.data.dropWhile (fun c => c = '/')).reverse.dropWhile
    (fun c => c = '/')).reverse)

/-- The fixed allow-list of GET routes stacked on `render_page`
(src/main.py lines 52-58). -/
def allowedPaths : List String :=
  ["/", "/reservations", "/about", "/bar", "/contact", "/gallery", "/philex-index"]

/-- Embedding of `render_page` (src/main.py lines 52-61): on an allow-listed
path, the template file rendered is `{path.strip("/") or "index"}.html`;
any other path falls through to the framework's 404 (`none`). -/
def render_page (path : String) : Option String :=
  if path ∈ allowedPaths then
    let template := if stripSlashes path = "" then "index" else stripSlashes path
    some (template ++ ".html")
  else none

/-- Embedding of the `add_headers` middleware (src/main.py lines 112-120):
after the inner handler produced `resp`, update its headers with the two
fixed security headers and a `Cache-Control` value chosen by whether the
status is exactly 200. -/
def add_headers (resp : Response) : Response :=
  { resp with headers :=
      (((resp.headers.set "X-XSS-Protection" "1; mode=block").set
        "X-Content-Type-Options" "nosniff").set
        "Cache-Control"
        (if resp.status = 200 then "public, max-age=1200" else "no-store")) }

/-- The index of the last occurrence of `c` in `cs`, if any. -/
def lastIndexOf (cs : List Char) (c : Char) : Option Nat :=
  (List.range cs.length).foldl
    (fun acc j => if cs.getD j c = c then some j else acc) none

/-- Model of the extension component of Python `os.path.splitext(p)[1]`
(posixpath): the suffix starting at the last dot, provided that dot lies
after the last `/` and the basename does not consist solely of leading dots
up to it (so `.woff` as a whole filename has no extension). -/
def splitextExt (p : String) : String :=
  let cs := p.data
  match lastIndexOf cs '.' with
  | none => ""
  | some d =>
    let start : Nat :=
      match lastIndexOf cs '/' with
      | none => 0
      | some si => si + 1
    if start ≤ d
        && (List.range d).any (fun j => decide (start ≤ j) && cs.getD j '.' != '.') then
      String.mk (cs.drop d)
    else ""

/-- Embedding of the `fix_mime_type` middleware (src/main.py lines 122-129):
look up the request path's extension in the font content-type table and, on a
hit, overwrite the response's `Content-Type` header; otherwise return the
response unchanged. -/
def fix_mime_type (path : String) (resp : Response) : Response :=
  let ext := splitextExt path
  if ext = ".ttf" then
    { resp with headers := resp.headers.set "Content-Type" "font/ttf" }
  else if ext = ".woff" then
    { resp with headers := resp.headers.set "Content-Type" "font/woff" }
  else if ext = ".woff2" then
    { resp with headers := resp.headers.set "Content-Type" "font/woff2" }
  else resp

/-- Modelled from the spec: the day/month/year parse (`"%d/%m/%Y"`) that
`reserve_table` was written to attempt. The call is absent from the running
code (the `datetime` parameter shadows the never-imported `datetime` module),
so the intended behavior is reconstructed from the spec's words: three
slash-separated numeric fields, a valid calendar day/month, a four-digit
year. -/
def parseDMY (s : String) : Option (Nat × Nat × Nat) :=
  match splitChar s.data '/' with
  | [d, m, y] =>
    match digitsToNat d, digitsToNat m, digitsToNat y with
    | some dn, some mn, some yn =>
      if d.length ≤ 2 && m.length ≤ 2 && y.length = 4
          && 1 ≤ mn && mn ≤ 12 && 1 ≤ dn && dn ≤ daysInMonth mn yn then
        some (dn, mn, yn)
      else none
    | _, _, _ => none
  | _ => none
where
  daysInMonth (m y : Nat) : Nat :=
    if m = 2 then
      if y % 4 = 0 && (y % 100 != 0 || y % 400 = 0) then 29 else 28
    else if m = 4 || m = 6 || m = 9 || m = 11 then 30
    else 31

/-- The English month name used by Python strftime `%B`. -/
def monthName : Nat → String
  | 1 => "January"
  | 2 => "February"
  | 3 => "March"
  | 4 => "April"
  | 5 => "May"
  | 6 => "June"
  | 7 => "July"
  | 8 => "August"
  | 9 => "September"
  | 10 => "October"
  | 11 => "November"
  | 12 => "December"
  | _ => ""

/-- Modelled from the spec: the long month-name rendering
(strftime `"%B %d, %Y"`, `%d` zero-padded) that the reservation handler was
written to apply to a parseable date, with the mandatory fallback to the raw
string on parse failure. -/
def format_date_spec (s : String) : String :=
  match parseDMY s with
  | some (d, m, y) =>
    monthName m ++ " " ++ (if d < 10 then "0" ++ toString d else toString d)
      ++ ", " ++ toString y
  | none => s

set_option maxRecDepth 4000 in
/-- C1: the claim says a date field `"25/12/2024"` is reformatted to
`"December 25, 2024"` in the email content. In the code the `datetime`
parameter shadows the never-imported `datetime` module, so the strptime
branch always raises and the bare `except:` always falls back: the email
content carries the raw `"25/12/2024"`, while the spec-modelled formatter
shows the intended rendering is `"December 25, 2024"`. -/
theorem c1_reservation_date_never_reformatted :
    (reserve_table ⟨some "4", some "25/12/2024", some "19:00", none⟩).2
      = [⟨"Table Reservation Request",
          create_html_content
            [("Party Size", "4"), ("Date", "25/12/2024"), ("Time", "19:00")]⟩]
    ∧ format_date_spec "25/12/2024" = "December 25, 2024"
    ∧ "25/12/2024" ≠ "December 25, 2024" := by
  refine ⟨by decide, by decide, by decide⟩

/-- C2: every valid contact submission (non-empty name, syntactically valid
email, non-empty message) yields a 302 redirect to `/contact` and schedules
exactly one email whose subject is `"Contact Form: "` followed by the
submitted name. -/
theorem c2_contact_valid_submission (name email message : String)
    (hname : name ≠ "") (hemail : isValidEmail email = true)
    (hmsg : message ≠ "") :
    (contact_form ⟨some name, some email, some message⟩).1.status = 302
    ∧ (contact_form ⟨some name, some email, some message⟩).1.location = some "/contact"
    ∧ (contact_form ⟨some name, some email, some message⟩).2
        = [⟨"Contact Form: " ++ name,
            create_html_content [("name", name), ("email", email), ("message", message)]⟩] := by
  simp [contact_form, hemail]

/-- C2 witness: the valid submission (name "Jo", email "jo@example.com",
message "hi") exercises the theorem at a concrete input. -/
theorem c2_contact_valid_submission_witness :
    (contact_form ⟨some "Jo", some "jo@example.com", some "hi"⟩).1.status = 302
    ∧ (contact_form ⟨some "Jo", some "jo@example.com", some "hi"⟩).1.location = some "/contact"
    ∧ (contact_form ⟨some "Jo", some "jo@example.com", some "hi"⟩).2
        = [⟨"Contact Form: " ++ "Jo",
            create_html_content [("name", "Jo"), ("email", "jo@example.com"), ("message", "hi")]⟩] :=
  c2_contact_valid_submission "Jo" "jo@example.com" "hi"
    (by decide) (by decide) (by decide)

/-- C3: for every reservation submission that passes parameter validation
and whose date is not parseable as day/month/year, the date placed in the
email content is the original input string unchanged and the response is a
302 redirect to `/bar` — the parse failure is never surfaced to the
client. -/
theorem c3_unparseable_date_falls_back (ps : String) (n : Int)
    (date time : String) (dt : Option String)
    (hps : parseFormInt ps = some n) (hdate : parseDMY date = none) :
    (reserve_table ⟨some ps, some date, some time, dt⟩).1.status = 302
    ∧ (reserve_table ⟨some ps, some date, some time, dt⟩).1.location = some "/bar"
    ∧ (reserve_table ⟨some ps, some date, some time, dt⟩).2
        = [⟨"Table Reservation Request",
            create_html_content
              [("Party Size", toString n), ("Date", date), ("Time", time)]⟩] := by
  simp [reserve_table, hps]

/-- C3 witness: the submission (partysize "4", date "not-a-date",
time "19:00") exercises the theorem at a concrete input. -/
theorem c3_unparseable_date_falls_back_witness :
    (reserve_table ⟨some "4", some "not-a-date", some "19:00", none⟩).1.status = 302
    ∧ (reserve_table ⟨some "4", some "not-a-date", some "19:00", none⟩).1.location = some "/bar"
    ∧ (reserve_table ⟨some "4", some "not-a-date", some "19:00", none⟩).2
        = [⟨"Table Reservation Request",
            create_html_content
              [("Party Size", toString (4 : Int)), ("Date", "not-a-date"), ("Time", "19:00")]⟩] :=
  c3_unparseable_date_falls_back "4" 4 "not-a-date" "19:00" none
    (by decide) (by decide)

/-- C4: a contact submission whose email field fails the email-syntax check
gets a 422 validation response (a 4xx status) and no email-send task is
scheduled: rejection happens before any scheduling. -/
theorem c4_invalid_email_rejected (name email message : String)
    (hemail : isValidEmail email = false) :
    (contact_form ⟨some name, some email, some message⟩).1.status = 422
    ∧ 400 ≤ (contact_form ⟨some name, some email, some message⟩).1.status
    ∧ (contact_form ⟨some name, some email, some message⟩).1.status < 500
    ∧ (contact_form ⟨some name, some email, some message⟩).2 = [] := by
  simp [contact_form, hemail]

/-- C4 witness: the submission (name "Jo", email "not-an-email",
message "hi") exercises the theorem at a concrete input. -/
theorem c4_invalid_email_rejected_witness :
    (contact_form ⟨some "Jo", some "not-an-email", some "hi"⟩).1.status = 422
    ∧ 400 ≤ (contact_form ⟨some "Jo", some "not-an-email", some "hi"⟩).1.status
    ∧ (contact_form ⟨some "Jo", some "not-an-email", some "hi"⟩).1.status < 500
    ∧ (contact_form ⟨some "Jo", some "not-an-email", some "hi"⟩).2 = [] :=
  c4_invalid_email_rejected "Jo" "not-an-email" "hi" (by decide)

/-- C5: after the `add_headers` middleware runs, every response carries
`X-Content-Type-Options: nosniff` and `X-XSS-Protection: 1; mode=block`,
and its `Cache-Control` header is `public, max-age=1200` exactly when the
status is 200 and `no-store` otherwise. -/
theorem c5_security_and_caching_headers (resp : Response) :
    (add_headers resp).headers.get "X-Content-Type-Options" = some "nosniff"
    ∧ (add_headers resp).headers.get "X-XSS-Protection" = some "1; mode=block"
    ∧ ((add_headers resp).headers.get "Cache-Control"
        = some "public, max-age=1200" ↔ resp.status = 200)
    ∧ (resp.status ≠ 200 →
        (add_headers resp).headers.get "Cache-Control" = some "no-store") := by
  by_cases h : resp.status = 200 <;>
    simp [add_headers, Headers.set, Headers.get, h]

/-- C6 counterexample: a reservation with partysize "0" — not a positive
integer — is not rejected: the handler returns 302 and schedules one email,
because the declared parameter type only enforces integer coercion, not
positivity. -/
theorem c6_zero_partysize_accepted :
    (reserve_table ⟨some "0", some "25/12/2024", some "19:00", none⟩).1.status = 302
    ∧ (reserve_table ⟨some "0", some "25/12/2024", some "19:00", none⟩).2.length = 1 := by
  refine ⟨by decide, by decide⟩

/-- C6 (amended): a reservation submission whose partysize field is missing
or not parseable as an integer gets a 422 validation response (a 4xx
status) and no email-send task is scheduled; zero and negative integers,
however, pass validation. -/
theorem c6_nonint_partysize_rejected (ps : Option String)
    (date time : String) (dt : Option String)
    (hps : ∀ s, ps = some s → parseFormInt s = none) :
    (reserve_table ⟨ps, some date, some time, dt⟩).1.status = 422
    ∧ 400 ≤ (reserve_table ⟨ps, some date, some time, dt⟩).1.status
    ∧ (reserve_table ⟨ps, some date, some time, dt⟩).1.status < 500
    ∧ (reserve_table ⟨ps, some date, some time, dt⟩).2 = [] := by
  cases ps with
  | none =>
    refine ⟨rfl, ?_, ?_, rfl⟩
    · show (400 : Nat) ≤ 422
      decide
    · show (422 : Nat) < 500
      decide
  | some s => simp [reserve_table, hps s rfl]

/-- C6 witness: the non-integer partysize "four" exercises the amended
theorem at a concrete input. -/
theorem c6_nonint_partysize_rejected_witness :
    (reserve_table ⟨some "four", some "25/12/2024", some "19:00", none⟩).1.status = 422
    ∧ 400 ≤ (reserve_table ⟨some "four", some "25/12/2024", some "19:00", none⟩).1.status
    ∧ (reserve_table ⟨some "four", some "25/12/2024", some "19:00", none⟩).1.status < 500
    ∧ (reserve_table ⟨some "four", some "25/12/2024", some "19:00", none⟩).2 = [] :=
  c6_nonint_partysize_rejected (some "four") "25/12/2024" "19:00" none
    (fun s hs => by cases hs; decide)

/-- C7: the claim says the content formatter HTML-escapes user-supplied
values. It does not: a value carrying HTML metacharacters is interpolated
verbatim into the `<p><b>Key:</b> value</p>` line, so the script tag below
lands unescaped in the generated fragment. -/
theorem c7_values_embedded_unescaped :
    create_html_content [("name", "<script>alert(1)</script>")]
      = "\n    <html>\n    <body>\n        <h2>Form Submission</h2>\n        "
        ++ "<p><b>Name:</b> <script>alert(1)</script></p>"
        ++ "\n    </body>\n    </html>\n    " := by
  decide

/-- C8: on every allow-listed GET path the rendered template identifier is
the path stripped of leading and trailing slashes, with an empty result
mapped to `index`; in particular `/` renders the index template and
`/about` renders the about template. -/
theorem c8_template_from_path (path : String) (hpath : path ∈ allowedPaths) :
    render_page path
      = some ((if stripSlashes path = "" then "index" else stripSlashes path) ++ ".html")
    ∧ render_page "/" = some "index.html"
    ∧ render_page "/about" = some "about.html" := by
  refine ⟨by simp [render_page, hpath], by decide, by decide⟩

/-- C8 witness: the allow-listed path `/reservations` exercises the theorem
at a concrete input. -/
theorem c8_template_from_path_witness :
    render_page "/reservations"
      = some ((if stripSlashes "/reservations" = "" then "index"
          else stripSlashes "/reservations") ++ ".html")
    ∧ render_page "/" = some "index.html"
    ∧ render_page "/about" = some "about.html" :=
  c8_template_from_path "/reservations" (by decide)

/-- C9: the `fix_mime_type` middleware overwrites the response's
`Content-Type` to `font/ttf`, `font/woff` or `font/woff2` when the request
path's extension is `.ttf`, `.woff` or `.woff2` respectively, and returns
the response untouched for any other extension; it applies to every
response, error responses included (the response is universally
quantified). -/
theorem c9_font_mime_correction (path : String) (resp : Response) :
    (splitextExt path = ".ttf" →
      (fix_mime_type path resp).headers.get "Content-Type" = some "font/ttf")
    ∧ (splitextExt path = ".woff" →
      (fix_mime_type path resp).headers.get "Content-Type" = some "font/woff")
    ∧ (splitextExt path = ".woff2" →
      (fix_mime_type path resp).headers.get "Content-Type" = some "font/woff2")
    ∧ (splitextExt path ≠ ".ttf" → splitextExt path ≠ ".woff" →
      splitextExt path ≠ ".woff2" → fix_mime_type path resp = resp) := by
  refine ⟨fun h => ?_, fun h => ?_, fun h => ?_, fun h1 h2 h3 => ?_⟩ <;>
    simp [fix_mime_type, Headers.set, Headers.get, *]

/-- C9 witness: the static font path `/static/fonts/lato.woff2` on a 404
response exercises the theorem at a concrete input. -/
theorem c9_font_mime_correction_witness :
    (fix_mime_type "/static/fonts/lato.woff2"
        ⟨404, Headers.empty, none⟩).headers.get "Content-Type" = some "font/woff2" :=
  (c9_font_mime_correction "/static/fonts/lato.woff2"
    ⟨404, Headers.empty, none⟩).2.2.1 (by decide)

/-- C10: two reservation submissions agreeing on partysize, date and time
but differing arbitrarily in the optional datetime field produce identical
results — same response and same scheduled email — because the running code
never uses the `datetime` value (the parameter only shadows the module
name). -/
theorem c10_datetime_field_no_influence (ps date time : Option String)
    (dt1 dt2 : Option String) :
    reserve_table ⟨ps, date, time, dt1⟩ = reserve_table ⟨ps, date, time, dt2⟩ := by
  cases ps <;> cases date <;> cases time <;> rfl
